import Mathlib

/-!
Shallow embedding of the Express CRUD server (produtos/clientes) with its
NodeCache response cache, cache middleware, route handlers and the
centralized error-handling middleware, together with theorems checking the
specification's claims against it.

The embedding follows the cached variant of the application source
(the file that configures `NodeCache ({ stdTTL: 100 })`, wraps GET routes in
`cacheMiddleware`, and calls `cache.flushAll()` after successful mutations).
The MySQL database is modelled as in-memory lists of rows; `execute` calls
become pure operations on that state.  Request-body fields are JavaScript
values (strings or numbers, possibly absent), and the handlers' `!field`
validation checks are modelled through JavaScript truthiness.
-/

namespace TrabalhoGustavo

/-- A JavaScript value appearing in a JSON request body: a string or a
number.  (The routes only destructure string/number fields.) -/
inductive JsValue where
  | str (s : String)
  | num (n : Int)
deriving DecidableEq, Repr

/-- JavaScript truthiness of a value: the empty string and the number 0 are
falsy, everything else here is truthy. -/
def JsValue.truthy : JsValue → Bool
  | .str s => s ≠ ""
  | .num n => n ≠ 0

/-- Truthiness of a possibly-absent body field, as tested by the handlers'
`if (!field)` checks: an absent field (`undefined`) is falsy. -/
def fieldTruthy : Option JsValue → Bool
  | none => false
  | some v => v.truthy

/-- A row of the `produtos` table. -/
structure ProdutoRow where
  id : Nat
  nome : JsValue
  preco : JsValue
deriving DecidableEq, Repr

/-- A row of the `clientes` table. -/
structure ClienteRow where
  id : Nat
  nome : JsValue
  sobrenome : JsValue
  email : JsValue
  idade : JsValue
deriving DecidableEq, Repr

/-- The MySQL database state: both tables plus the AUTO_INCREMENT counters
that produce server-generated ids for INSERTs. -/
structure DB where
  produtos : List ProdutoRow
  clientes : List ClienteRow
  nextProdutoId : Nat
  nextClienteId : Nat
deriving DecidableEq, Repr

/-- `SELECT * FROM produtos`. -/
def DB.selectAllProdutos (db : DB) : List ProdutoRow :=
  db.produtos

/-- `SELECT * FROM produtos WHERE id = ?`. -/
def DB.selectProdutoById (db : DB) (id : Nat) : List ProdutoRow :=
  db.produtos.filter (fun r => r.id == id)

/-- `INSERT INTO produtos (nome, preco) VALUES (?, ?)`: returns the updated
database and the generated `insertId`. -/
def DB.insertProduto (db : DB) (nome preco : JsValue) : DB × Nat :=
  ({ db with
      produtos := db.produtos ++ [⟨db.nextProdutoId, nome, preco⟩],
      nextProdutoId := db.nextProdutoId + 1 },
   db.nextProdutoId)

/-- `UPDATE produtos SET nome = ?, preco = ? WHERE id = ?`: returns the
updated database and `affectedRows`. -/
def DB.updateProduto (db : DB) (id : Nat) (nome preco : JsValue) : DB × Nat :=
  ({ db with
      produtos := db.produtos.map
        (fun r => if r.id == id then { r with nome := nome, preco := preco } else r) },
   db.produtos.countP (fun r => r.id == id))

/-- `DELETE FROM produtos WHERE id = ?`: returns the updated database and
`affectedRows`. -/
def DB.deleteProduto (db : DB) (id : Nat) : DB × Nat :=
  ({ db with produtos := db.produtos.filter (fun r => !(r.id == id)) },
   db.produtos.countP (fun r => r.id == id))

/-- `SELECT * FROM clientes`. -/
def DB.selectAllClientes (db : DB) : List ClienteRow :=
  db.clientes

/-- `SELECT * FROM clientes WHERE id = ?`. -/
def DB.selectClienteById (db : DB) (id : Nat) : List ClienteRow :=
  db.clientes.filter (fun r => r.id == id)

/-- `INSERT INTO clientes (nome, sobrenome, email, idade) VALUES (?, ?, ?, ?)`. -/
def DB.insertCliente (db : DB) (nome sobrenome email idade : JsValue) : DB × Nat :=
  ({ db with
      clientes := db.clientes ++ [⟨db.nextClienteId, nome, sobrenome, email, idade⟩],
      nextClienteId := db.nextClienteId + 1 },
   db.nextClienteId)

/-- `UPDATE clientes SET nome = ?, sobrenome = ?, email = ?, idade = ? WHERE id = ?`. -/
def DB.updateCliente (db : DB) (id : Nat) (nome sobrenome email idade : JsValue) :
    DB × Nat :=
  ({ db with
      clientes := db.clientes.map
        (fun r => if r.id == id then
            { r with nome := nome, sobrenome := sobrenome, email := email, idade := idade }
          else r) },
   db.clientes.countP (fun r => r.id == id))

/-- `DELETE FROM clientes WHERE id = ?`. -/
def DB.deleteCliente (db : DB) (id : Nat) : DB × Nat :=
  ({ db with clientes := db.clientes.filter (fun r => !(r.id == id)) },
   db.clientes.countP (fun r => r.id == id))

/-- `true` iff the `produtos` table has a row with this id. -/
def DB.hasProduto (db : DB) (id : Nat) : Bool :=
  db.produtos.any (fun r => r.id == id)

/-- `true` iff the `clientes` table has a row with this id. -/
def DB.hasCliente (db : DB) (id : Nat) : Bool :=
  db.clientes.any (fun r => r.id == id)

/-- A response body as produced by the handlers' `res.json` / `res.send`
calls. -/
inductive RespBody where
  | produtoRows (rs : List ProdutoRow)
  | produtoRow (r : ProdutoRow)
  | clienteRows (rs : List ClienteRow)
  | clienteRow (r : ClienteRow)
  | produtoCreated (id : Nat) (nome preco : JsValue) (message : String)
  | clienteCreated (id : Nat) (nome sobrenome email idade : JsValue) (message : String)
  | messageOnly (message : String)
  | errorBody (message : String)
deriving DecidableEq, Repr

/-- `stdTTL: 100` from the NodeCache configuration. -/
def stdTTL : Nat := 100

/-- One NodeCache entry: the stored body and the time it was stored. -/
structure CacheEntry where
  value : RespBody
  insertedAt : Nat
deriving DecidableEq, Repr

/-- The NodeCache store, keyed by `req.originalUrl`. -/
abbrev Cache := List (String × CacheEntry)

/-- `cache.get(key)` at time `now`: an entry older than the TTL is treated
as absent. -/
def cacheGet (c : Cache) (now : Nat) (key : String) : Option RespBody :=
  match c.find? (fun p => p.1 == key) with
  | some (_, e) => if now ≤ e.insertedAt + stdTTL then some e.value else none
  | none => none

/-- `cache.set(key, body)` at time `now`: stores the body under the key,
refreshing any existing entry. -/
def cacheSet (c : Cache) (key : String) (v : RespBody) (now : Nat) : Cache :=
  (key, ⟨v, now⟩) :: c.filter (fun p => p.1 ≠ key)

/-- `cache.flushAll()`: clears every entry. -/
def flushAll (_ : Cache) : Cache := []

/-- A forwarded error as received by the error-handling middleware:
`status` is the optional `err.status` property (absent on the plain
`Error`s thrown by the handlers), `message` is `err.message`. -/
structure AppError where
  status : Option Nat
  message : String
deriving DecidableEq, Repr

/-- The centralized error-handling middleware:
`res.status(err.status || 500); res.send({ message: err.message, ... })`. -/
def errorMiddleware (e : AppError) : Nat × RespBody :=
  (e.status.getD 500, .errorBody e.message)

/-- The server's mutable state: the database and the response cache. -/
structure ServerState where
  db : DB
  cache : Cache
deriving DecidableEq, Repr

/-- The observable outcome of one request: the HTTP status, the response
body, the server state afterwards, and whether the handler issued any SQL
statement (`req.db.execute`). -/
structure RequestOutcome where
  status : Nat
  body : RespBody
  state : ServerState
  dbInvoked : Bool
deriving DecidableEq, Repr

/-- Route an error to the error-handling middleware, leaving the server
state as the handler left it.  This is the error path of the routes that do
not go through `cacheMiddleware` (the mutating verbs), where `res.json` is
the stock Express method. -/
def respondError (s : ServerState) (dbInvoked : Bool) (e : AppError) : RequestOutcome :=
  { status := (errorMiddleware e).1, body := (errorMiddleware e).2,
    state := s, dbInvoked := dbInvoked }

/-- Route an error to the error-handling middleware on a request whose
`res.json` was patched by `cacheMiddleware` (a GET that missed the cache):
the middleware responds with `res.send({ message, error })`, and Express's
`res.send` on a plain object delegates to `this.json`, which is the patched
closure — so the error body is stored in the cache under the request key
before being sent. -/
def respondErrorCaching (s : ServerState) (now : Nat) (key : String)
    (dbInvoked : Bool) (e : AppError) : RequestOutcome :=
  { status := (errorMiddleware e).1, body := (errorMiddleware e).2,
    state := { s with cache := cacheSet s.cache key (errorMiddleware e).2 now },
    dbInvoked := dbInvoked }

/-- Body of a POST/PUT request on `/produtos`: the destructured fields,
absent when the key is missing. -/
structure ProdutoBody where
  nome : Option JsValue
  preco : Option JsValue
deriving DecidableEq, Repr

/-- Body of a POST/PUT request on `/clientes`. -/
structure ClienteBody where
  nome : Option JsValue
  sobrenome : Option JsValue
  email : Option JsValue
  idade : Option JsValue
deriving DecidableEq, Repr

/-- `GET /produtos` with `cacheMiddleware`: on a cache hit respond with the
cached body; on a miss run `SELECT * FROM produtos`, respond, and populate
the cache via the patched `res.json`. -/
def handleGetProdutos (s : ServerState) (now : Nat) (query : String) : RequestOutcome :=
  let key := "/produtos" ++ query
  match cacheGet s.cache now key with
  | some cached =>
      { status := 200, body := cached, state := s, dbInvoked := false }
  | none =>
      let body := RespBody.produtoRows s.db.selectAllProdutos
      { status := 200, body := body,
        state := { s with cache := cacheSet s.cache key body now },
        dbInvoked := true }

/-- `POST /produtos`: validate `!nome || !preco`, INSERT, respond 201, then
`cache.flushAll()`; a validation failure is thrown to the error middleware. -/
def handlePostProdutos (s : ServerState) (b : ProdutoBody) : RequestOutcome :=
  if !(fieldTruthy b.nome) || !(fieldTruthy b.preco) then
    respondError s false ⟨none, "Nome e preço são obrigatórios."⟩
  else
    let nome := b.nome.getD (.str "")
    let preco := b.preco.getD (.num 0)
    let (db2, newId) := s.db.insertProduto nome preco
    { status := 201,
      body := .produtoCreated newId nome preco "Produto criado com sucesso",
      state := { db := db2, cache := flushAll s.cache },
      dbInvoked := true }

/-- `GET /produtos/:id` with `cacheMiddleware`: cache hit, or SELECT by id;
zero rows throws `Produto não encontrado` to the error middleware, whose
`res.send` goes through the patched `res.json` and caches the error body
under the request key. -/
def handleGetProdutoById (s : ServerState) (now : Nat) (id : Nat) (query : String) :
    RequestOutcome :=
  let key := "/produtos/" ++ toString id ++ query
  match cacheGet s.cache now key with
  | some cached =>
      { status := 200, body := cached, state := s, dbInvoked := false }
  | none =>
      match s.db.selectProdutoById id with
      | [] => respondErrorCaching s now key true ⟨none, "Produto não encontrado"⟩
      | r :: _ =>
          let body := RespBody.produtoRow r
          { status := 200, body := body,
            state := { s with cache := cacheSet s.cache key body now },
            dbInvoked := true }

/-- `PUT /produtos/:id`: validate, UPDATE, check `affectedRows`, respond,
then `cache.flushAll()`. -/
def handlePutProduto (s : ServerState) (id : Nat) (b : ProdutoBody) : RequestOutcome :=
  if !(fieldTruthy b.nome) || !(fieldTruthy b.preco) then
    respondError s false ⟨none, "Nome e preço são obrigatórios."⟩
  else
    let nome := b.nome.getD (.str "")
    let preco := b.preco.getD (.num 0)
    let (db2, affected) := s.db.updateProduto id nome preco
    if affected == 0 then
      respondError { s with db := db2 } true ⟨none, "Produto não encontrado"⟩
    else
      { status := 200, body := .messageOnly "Produto atualizado com sucesso",
        state := { db := db2, cache := flushAll s.cache },
        dbInvoked := true }

/-- `DELETE /produtos/:id`: DELETE, check `affectedRows`, respond, then
`cache.flushAll()`. -/
def handleDeleteProduto (s : ServerState) (id : Nat) : RequestOutcome :=
  let (db2, affected) := s.db.deleteProduto id
  if affected == 0 then
    respondError { s with db := db2 } true ⟨none, "Produto não encontrado"⟩
  else
    { status := 200, body := .messageOnly "Produto excluído com sucesso",
      state := { db := db2, cache := flushAll s.cache },
      dbInvoked := true }

/-- `GET /clientes` with `cacheMiddleware`. -/
def handleGetClientes (s : ServerState) (now : Nat) (query : String) : RequestOutcome :=
  let key := "/clientes" ++ query
  match cacheGet s.cache now key with
  | some cached =>
      { status := 200, body := cached, state := s, dbInvoked := false }
  | none =>
      let body := RespBody.clienteRows s.db.selectAllClientes
      { status := 200, body := body,
        state := { s with cache := cacheSet s.cache key body now },
        dbInvoked := true }

/-- `POST /clientes`. -/
def handlePostClientes (s : ServerState) (b : ClienteBody) : RequestOutcome :=
  if !(fieldTruthy b.nome) || !(fieldTruthy b.sobrenome) ||
      !(fieldTruthy b.email) || !(fieldTruthy b.idade) then
    respondError s false ⟨none, "Nome, sobrenome, email e idade são obrigatórios."⟩
  else
    let nome := b.nome.getD (.str "")
    let sobrenome := b.sobrenome.getD (.str "")
    let email := b.email.getD (.str "")
    let idade := b.idade.getD (.num 0)
    let (db2, newId) := s.db.insertCliente nome sobrenome email idade
    { status := 201,
      body := .clienteCreated newId nome sobrenome email idade "Cliente criado com sucesso",
      state := { db := db2, cache := flushAll s.cache },
      dbInvoked := true }

/-- `GET /clientes/:id` with `cacheMiddleware`: as for produtos, the
not-found error path caches the error body via the patched `res.json`. -/
def handleGetClienteById (s : ServerState) (now : Nat) (id : Nat) (query : String) :
    RequestOutcome :=
  let key := "/clientes/" ++ toString id ++ query
  match cacheGet s.cache now key with
  | some cached =>
      { status := 200, body := cached, state := s, dbInvoked := false }
  | none =>
      match s.db.selectClienteById id with
      | [] => respondErrorCaching s now key true ⟨none, "Cliente não encontrado"⟩
      | r :: _ =>
          let body := RespBody.clienteRow r
          { status := 200, body := body,
            state := { s with cache := cacheSet s.cache key body now },
            dbInvoked := true }

/-- `PUT /clientes/:id`. -/
def handlePutCliente (s : ServerState) (id : Nat) (b : ClienteBody) : RequestOutcome :=
  if !(fieldTruthy b.nome) || !(fieldTruthy b.sobrenome) ||
      !(fieldTruthy b.email) || !(fieldTruthy b.idade) then
    respondError s false ⟨none, "Nome, sobrenome, email e idade são obrigatórios."⟩
  else
    let nome := b.nome.getD (.str "")
    let sobrenome := b.sobrenome.getD (.str "")
    let email := b.email.getD (.str "")
    let idade := b.idade.getD (.num 0)
    let (db2, affected) := s.db.updateCliente id nome sobrenome email idade
    if affected == 0 then
      respondError { s with db := db2 } true ⟨none, "Cliente não encontrado"⟩
    else
      { status := 200, body := .messageOnly "Cliente atualizado com sucesso",
        state := { db := db2, cache := flushAll s.cache },
        dbInvoked := true }

/-- `DELETE /clientes/:id`. -/
def handleDeleteCliente (s : ServerState) (id : Nat) : RequestOutcome :=
  let (db2, affected) := s.db.deleteCliente id
  if affected == 0 then
    respondError { s with db := db2 } true ⟨none, "Cliente não encontrado"⟩
  else
    { status := 200, body := .messageOnly "Cliente excluído com sucesso",
      state := { db := db2, cache := flushAll s.cache },
      dbInvoked := true }

/-- One incoming HTTP request on the application's routes.  `query` is the
query-string part of `req.originalUrl` (empty when there is none). -/
inductive Request where
  | getProdutos (query : String)
  | postProdutos (b : ProdutoBody)
  | getProdutoById (id : Nat) (query : String)
  | putProduto (id : Nat) (b : ProdutoBody)
  | deleteProduto (id : Nat)
  | getClientes (query : String)
  | postClientes (b : ClienteBody)
  | getClienteById (id : Nat) (query : String)
  | putCliente (id : Nat) (b : ClienteBody)
  | deleteCliente (id : Nat)
deriving DecidableEq, Repr

/-- `true` for the mutating verbs (POST/PUT/DELETE). -/
def Request.isMutating : Request → Bool
  | .postProdutos _ | .putProduto _ _ | .deleteProduto _
  | .postClientes _ | .putCliente _ _ | .deleteCliente _ => true
  | _ => false

/-- `true` for the GET routes (the ones wrapped in `cacheMiddleware`). -/
def Request.isGet : Request → Bool
  | .getProdutos _ | .getProdutoById _ _ | .getClientes _ | .getClienteById _ _ => true
  | _ => false

/-- The cache key (`req.originalUrl`) of a GET request. -/
def Request.cacheKey : Request → String
  | .getProdutos query => "/produtos" ++ query
  | .getProdutoById id query => "/produtos/" ++ toString id ++ query
  | .getClientes query => "/clientes" ++ query
  | .getClienteById id query => "/clientes/" ++ toString id ++ query
  | _ => ""

/-- Dispatch one request through the pipeline at time `now`. -/
def handleRequest (s : ServerState) (now : Nat) : Request → RequestOutcome
  | .getProdutos query => handleGetProdutos s now query
  | .postProdutos b => handlePostProdutos s b
  | .getProdutoById id query => handleGetProdutoById s now id query
  | .putProduto id b => handlePutProduto s id b
  | .deleteProduto id => handleDeleteProduto s id
  | .getClientes query => handleGetClientes s now query
  | .postClientes b => handlePostClientes s b
  | .getClienteById id query => handleGetClienteById s now id query
  | .putCliente id b => handlePutCliente s id b
  | .deleteCliente id => handleDeleteCliente s id

/-! ## Helper lemmas -/

theorem cacheGet_nil (now : Nat) (key : String) : cacheGet [] now key = none := rfl

/-- Every GET on a server whose cache is empty misses the cache and issues a
SQL statement. -/
theorem get_dbInvoked_of_cache_nil (s : ServerState) (t : Nat) (g : Request)
    (h : s.cache = []) (hg : g.isGet = true) :
    (handleRequest s t g).dbInvoked = true := by
  cases g with
  | getProdutos q => simp [handleRequest, handleGetProdutos, h, cacheGet_nil]
  | getProdutoById id q =>
      simp only [handleRequest, handleGetProdutoById, h, cacheGet_nil]
      split <;> simp [respondErrorCaching]
  | getClientes q => simp [handleRequest, handleGetClientes, h, cacheGet_nil]
  | getClienteById id q =>
      simp only [handleRequest, handleGetClienteById, h, cacheGet_nil]
      split <;> simp [respondErrorCaching]
  | postProdutos b => simp [Request.isGet] at hg
  | putProduto id b => simp [Request.isGet] at hg
  | deleteProduto id => simp [Request.isGet] at hg
  | postClientes b => simp [Request.isGet] at hg
  | putCliente id b => simp [Request.isGet] at hg
  | deleteCliente id => simp [Request.isGet] at hg

/-- Every mutating request either fails with status 500 and an unchanged
cache, or succeeds (200/201) with an emptied cache. -/
theorem mutation_outcome (s : ServerState) (now : Nat) (r : Request)
    (hm : r.isMutating = true) :
    ((handleRequest s now r).status = 500 ∧
      (handleRequest s now r).state.cache = s.cache) ∨
    (((handleRequest s now r).status = 200 ∨ (handleRequest s now r).status = 201) ∧
      (handleRequest s now r).state.cache = []) := by
  cases r with
  | getProdutos q => simp [Request.isMutating] at hm
  | getProdutoById id q => simp [Request.isMutating] at hm
  | getClientes q => simp [Request.isMutating] at hm
  | getClienteById id q => simp [Request.isMutating] at hm
  | postProdutos b =>
      simp only [handleRequest, handlePostProdutos, DB.insertProduto]
      split
      · exact Or.inl (by simp [respondError, errorMiddleware])
      · exact Or.inr (by simp [flushAll])
  | putProduto id b =>
      simp only [handleRequest, handlePutProduto, DB.updateProduto]
      split
      · exact Or.inl (by simp [respondError, errorMiddleware])
      · split
        · exact Or.inl (by simp [respondError, errorMiddleware])
        · exact Or.inr (by simp [flushAll])
  | deleteProduto id =>
      simp only [handleRequest, handleDeleteProduto, DB.deleteProduto]
      split
      · exact Or.inl (by simp [respondError, errorMiddleware])
      · exact Or.inr (by simp [flushAll])
  | postClientes b =>
      simp only [handleRequest, handlePostClientes, DB.insertCliente]
      split
      · exact Or.inl (by simp [respondError, errorMiddleware])
      · exact Or.inr (by simp [flushAll])
  | putCliente id b =>
      simp only [handleRequest, handlePutCliente, DB.updateCliente]
      split
      · exact Or.inl (by simp [respondError, errorMiddleware])
      · split
        · exact Or.inl (by simp [respondError, errorMiddleware])
        · exact Or.inr (by simp [flushAll])
  | deleteCliente id =>
      simp only [handleRequest, handleDeleteCliente, DB.deleteCliente]
      split
      · exact Or.inl (by simp [respondError, errorMiddleware])
      · exact Or.inr (by simp [flushAll])

/-- A sample database/cache state for concrete witnesses. -/
def exampleState : ServerState :=
  { db := { produtos := [⟨1, .str "Caneta", .num 5⟩],
            clientes := [⟨1, .str "Ana", .str "Silva", .str "a@x.com", .num 30⟩],
            nextProdutoId := 2, nextClienteId := 2 },
    cache := [("/produtos", ⟨.produtoRows [⟨1, .str "Caneta", .num 5⟩], 0⟩)] }

/-! ## Claim theorems -/

/-- C1: every successful mutating operation (POST, PUT or DELETE on
/produtos or /clientes) invalidates the entire cache, so no cache entry
derived from the pre-mutation state is served: every GET arriving
afterwards misses the cache and re-reads from the database. -/
theorem mutation_success_invalidates_cache (s : ServerState) (now : Nat) (r : Request)
    (hm : r.isMutating = true) (hs : (handleRequest s now r).status < 400) :
    (handleRequest s now r).state.cache = [] ∧
    ∀ (g : Request) (t : Nat), g.isGet = true →
      (handleRequest (handleRequest s now r).state t g).dbInvoked = true := by
  rcases mutation_outcome s now r hm with ⟨h500, _⟩ | ⟨_, hc⟩
  · omega
  · exact ⟨hc, fun g t hg => get_dbInvoked_of_cache_nil _ t g hc hg⟩

theorem mutation_success_invalidates_cache_witness :
    (handleRequest exampleState 0 (.deleteProduto 1)).state.cache = [] :=
  (mutation_success_invalidates_cache exampleState 0 (.deleteProduto 1)
    (by decide) (by decide)).1

/-- C7: a mutating request that fails (validation failure, not-found, or
any other error path) leaves the cache unchanged: `flushAll` runs only on
confirmed success. -/
theorem mutation_failure_leaves_cache_unchanged (s : ServerState) (now : Nat)
    (r : Request) (hm : r.isMutating = true)
    (hf : 400 ≤ (handleRequest s now r).status) :
    (handleRequest s now r).state.cache = s.cache := by
  rcases mutation_outcome s now r hm with ⟨_, hc⟩ | ⟨h2xx, _⟩
  · exact hc
  · omega

theorem mutation_failure_leaves_cache_unchanged_witness :
    (handleRequest exampleState 0 (.deleteProduto 9)).state.cache =
      exampleState.cache :=
  mutation_failure_leaves_cache_unchanged exampleState 0 (.deleteProduto 9)
    (by decide) (by decide)

/-- `true` when the produto body lacks one of its required keys. -/
def ProdutoBody.missingField (b : ProdutoBody) : Bool :=
  b.nome.isNone || b.preco.isNone

/-- `true` when the cliente body lacks one of its required keys. -/
def ClienteBody.missingField (c : ClienteBody) : Bool :=
  c.nome.isNone || c.sobrenome.isNone || c.email.isNone || c.idade.isNone

/-- `true` for a POST/PUT request whose body lacks a required field. -/
def Request.missingRequired : Request → Bool
  | .postProdutos b => b.missingField
  | .putProduto _ b => b.missingField
  | .postClientes c => c.missingField
  | .putCliente _ c => c.missingField
  | _ => false

/-- The validation message thrown by the corresponding handler. -/
def Request.validationMessage : Request → String
  | .postProdutos _ => "Nome e preço são obrigatórios."
  | .putProduto _ _ => "Nome e preço são obrigatórios."
  | .postClientes _ => "Nome, sobrenome, email e idade são obrigatórios."
  | .putCliente _ _ => "Nome, sobrenome, email e idade são obrigatórios."
  | _ => ""

theorem fieldTruthy_of_none {o : Option JsValue} (h : o = none) :
    fieldTruthy o = false := by
  subst h; rfl

/-- C2 counterexample: a POST /produtos whose body lacks `nome` is answered
with status 500 via the error middleware, not with a 400-class status,
because the thrown validation `Error` carries no `status` property. -/
theorem missing_field_not_400_class :
    (handleRequest exampleState 0 (.postProdutos ⟨none, some (.num 5)⟩)).status = 500 ∧
    ¬(400 ≤ (handleRequest exampleState 0 (.postProdutos ⟨none, some (.num 5)⟩)).status ∧
      (handleRequest exampleState 0 (.postProdutos ⟨none, some (.num 5)⟩)).status < 500) := by
  decide

/-- C2 (amended): a POST or PUT on /produtos or /clientes with a required
field missing from the body is answered with status 500 and the validation
message, through the generic error middleware. -/
theorem missing_field_yields_500_with_message (s : ServerState) (now : Nat)
    (r : Request) (h : r.missingRequired = true) :
    (handleRequest s now r).status = 500 ∧
    (handleRequest s now r).body = .errorBody r.validationMessage := by
  cases r with
  | postProdutos b =>
      simp only [Request.missingRequired, ProdutoBody.missingField, Bool.or_eq_true,
        Option.isNone_iff_eq_none] at h
      rcases h with h | h <;>
        simp [handleRequest, handlePostProdutos, fieldTruthy_of_none h,
          respondError, errorMiddleware, Request.validationMessage]
  | putProduto id b =>
      simp only [Request.missingRequired, ProdutoBody.missingField, Bool.or_eq_true,
        Option.isNone_iff_eq_none] at h
      rcases h with h | h <;>
        simp [handleRequest, handlePutProduto, fieldTruthy_of_none h,
          respondError, errorMiddleware, Request.validationMessage]
  | postClientes c =>
      simp only [Request.missingRequired, ClienteBody.missingField, Bool.or_eq_true,
        Option.isNone_iff_eq_none] at h
      rcases h with ((h | h) | h) | h <;>
        simp [handleRequest, handlePostClientes, fieldTruthy_of_none h,
          respondError, errorMiddleware, Request.validationMessage]
  | putCliente id c =>
      simp only [Request.missingRequired, ClienteBody.missingField, Bool.or_eq_true,
        Option.isNone_iff_eq_none] at h
      rcases h with ((h | h) | h) | h <;>
        simp [handleRequest, handlePutCliente, fieldTruthy_of_none h,
          respondError, errorMiddleware, Request.validationMessage]
  | getProdutos q => simp [Request.missingRequired] at h
  | getProdutoById id q => simp [Request.missingRequired] at h
  | deleteProduto id => simp [Request.missingRequired] at h
  | getClientes q => simp [Request.missingRequired] at h
  | getClienteById id q => simp [Request.missingRequired] at h
  | deleteCliente id => simp [Request.missingRequired] at h

theorem missing_field_yields_500_with_message_witness :
    (handleRequest exampleState 0 (.putProduto 1 ⟨some (.str "Caneta"), none⟩)).status = 500 ∧
    (handleRequest exampleState 0 (.putProduto 1 ⟨some (.str "Caneta"), none⟩)).body =
      .errorBody "Nome e preço são obrigatórios." :=
  missing_field_yields_500_with_message exampleState 0
    (.putProduto 1 ⟨some (.str "Caneta"), none⟩) (by decide)

/-- A lookup right after `cacheSet`, on the same key and within the TTL,
returns the stored value. -/
theorem cacheGet_cacheSet_self (c : Cache) (key : String) (v : RespBody)
    (now t : Nat) (ht : t ≤ now + stdTTL) :
    cacheGet (cacheSet c key v now) t key = some v := by
  simp [cacheGet, cacheSet, List.find?_cons, ht]

/-- C3 counterexample: on a server whose cache lacks the key, GET
/produtos/9 fails with `Produto não encontrado` yet populates the cache for
its key — the error middleware's `res.send(object)` delegates to the
cacheMiddleware-patched `res.json` — and a second GET /produtos/9 within
the TTL is served the cached error body with status 200, refuting the claim
that a failing GET never populates the cache and that a later GET on the
same key is not served a cached error body. -/
theorem failed_get_caches_error_counterexample :
    (handleRequest exampleState 0 (.getProdutoById 9 "")).status = 500 ∧
    (handleRequest exampleState 0 (.getProdutoById 9 "")).state.cache ≠
      exampleState.cache ∧
    cacheGet (handleRequest exampleState 0 (.getProdutoById 9 "")).state.cache 1
        "/produtos/9" = some (.errorBody "Produto não encontrado") ∧
    (handleRequest (handleRequest exampleState 0 (.getProdutoById 9 "")).state 1
        (.getProdutoById 9 "")).status = 200 ∧
    (handleRequest (handleRequest exampleState 0 (.getProdutoById 9 "")).state 1
        (.getProdutoById 9 "")).body = .errorBody "Produto não encontrado" := by
  decide

/-- C3 (amended): a GET whose handler fails (a cache-missing by-id GET
matching zero rows) responds 500 and DOES populate the cache with the error
body under the request's key, because the error middleware's `res.send` on
a plain object delegates to the cacheMiddleware-patched `res.json`; any GET
on the same key within the TTL is then served the cached error body with
status 200 and no SQL issued. -/
theorem failed_get_populates_cache_with_error (s : ServerState) (now : Nat)
    (r : Request) (hg : r.isGet = true)
    (hf : (handleRequest s now r).status ≠ 200) :
    (handleRequest s now r).status = 500 ∧
    (handleRequest s now r).state.cache =
      cacheSet s.cache r.cacheKey (handleRequest s now r).body now ∧
    ∀ t, t ≤ now + stdTTL →
      (handleRequest (handleRequest s now r).state t r).status = 200 ∧
      (handleRequest (handleRequest s now r).state t r).body =
        (handleRequest s now r).body ∧
      (handleRequest (handleRequest s now r).state t r).dbInvoked = false := by
  cases r with
  | getProdutos q =>
      exfalso; apply hf
      simp only [handleRequest, handleGetProdutos]
      split <;> rfl
  | getClientes q =>
      exfalso; apply hf
      simp only [handleRequest, handleGetClientes]
      split <;> rfl
  | getProdutoById id q =>
      simp only [handleRequest, handleGetProdutoById, Request.cacheKey] at hf ⊢
      cases hget : cacheGet s.cache now ("/produtos/" ++ toString id ++ q) with
      | some v => simp [hget] at hf
      | none =>
          simp only [hget] at hf ⊢
          cases hsel : s.db.selectProdutoById id with
          | cons r rs => simp [hsel] at hf
          | nil =>
              simp only [hsel]
              refine ⟨by simp [respondErrorCaching, errorMiddleware],
                by simp [respondErrorCaching, errorMiddleware], ?_⟩
              intro t ht
              have hget2 := cacheGet_cacheSet_self s.cache
                ("/produtos/" ++ toString id ++ q)
                (RespBody.errorBody "Produto não encontrado") now t ht
              simp [respondErrorCaching, errorMiddleware, hget2]
  | getClienteById id q =>
      simp only [handleRequest, handleGetClienteById, Request.cacheKey] at hf ⊢
      cases hget : cacheGet s.cache now ("/clientes/" ++ toString id ++ q) with
      | some v => simp [hget] at hf
      | none =>
          simp only [hget] at hf ⊢
          cases hsel : s.db.selectClienteById id with
          | cons r rs => simp [hsel] at hf
          | nil =>
              simp only [hsel]
              refine ⟨by simp [respondErrorCaching, errorMiddleware],
                by simp [respondErrorCaching, errorMiddleware], ?_⟩
              intro t ht
              have hget2 := cacheGet_cacheSet_self s.cache
                ("/clientes/" ++ toString id ++ q)
                (RespBody.errorBody "Cliente não encontrado") now t ht
              simp [respondErrorCaching, errorMiddleware, hget2]
  | postProdutos b => simp [Request.isGet] at hg
  | putProduto id b => simp [Request.isGet] at hg
  | deleteProduto id => simp [Request.isGet] at hg
  | postClientes b => simp [Request.isGet] at hg
  | putCliente id b => simp [Request.isGet] at hg
  | deleteCliente id => simp [Request.isGet] at hg

theorem failed_get_populates_cache_with_error_witness :
    (handleRequest (handleRequest exampleState 0 (.getProdutoById 9 "")).state 1
        (.getProdutoById 9 "")).status = 200 :=
  ((failed_get_populates_cache_with_error exampleState 0 (.getProdutoById 9 "")
      (by decide) (by decide)).2.2 1 (by decide)).1

/-- C4: for every GET on a list or by-id route, an unexpired cache entry at
the request's exact path+query key is returned as-is with no SQL issued and
no state change; on a miss SQL is issued, and when the handler succeeds the
cache is populated with the response body under that same key (the database
is not modified). -/
theorem get_cache_hit_miss_behavior (s : ServerState) (now : Nat) (r : Request)
    (hg : r.isGet = true) :
    (∀ v, cacheGet s.cache now r.cacheKey = some v →
        (handleRequest s now r).status = 200 ∧
        (handleRequest s now r).body = v ∧
        (handleRequest s now r).dbInvoked = false ∧
        (handleRequest s now r).state = s) ∧
    (cacheGet s.cache now r.cacheKey = none →
        (handleRequest s now r).dbInvoked = true ∧
        ((handleRequest s now r).status = 200 →
          (handleRequest s now r).state.cache =
            cacheSet s.cache r.cacheKey (handleRequest s now r).body now ∧
          (handleRequest s now r).state.db = s.db)) := by
  cases r with
  | getProdutos q =>
      refine ⟨fun v hv => ?_, fun hnone => ?_⟩
      · simp [handleRequest, handleGetProdutos, Request.cacheKey] at hv ⊢
        simp [hv]
      · simp [Request.cacheKey] at hnone
        simp [handleRequest, handleGetProdutos, Request.cacheKey, hnone]
  | getClientes q =>
      refine ⟨fun v hv => ?_, fun hnone => ?_⟩
      · simp [handleRequest, handleGetClientes, Request.cacheKey] at hv ⊢
        simp [hv]
      · simp [Request.cacheKey] at hnone
        simp [handleRequest, handleGetClientes, Request.cacheKey, hnone]
  | getProdutoById id q =>
      refine ⟨fun v hv => ?_, fun hnone => ?_⟩
      · simp [Request.cacheKey] at hv
        simp [handleRequest, handleGetProdutoById, hv]
      · simp [Request.cacheKey] at hnone
        simp only [handleRequest, handleGetProdutoById, Request.cacheKey, hnone]
        cases hsel : s.db.selectProdutoById id with
        | nil => simp [hsel, respondErrorCaching, errorMiddleware]
        | cons r rs => simp [hsel]
  | getClienteById id q =>
      refine ⟨fun v hv => ?_, fun hnone => ?_⟩
      · simp [Request.cacheKey] at hv
        simp [handleRequest, handleGetClienteById, hv]
      · simp [Request.cacheKey] at hnone
        simp only [handleRequest, handleGetClienteById, Request.cacheKey, hnone]
        cases hsel : s.db.selectClienteById id with
        | nil => simp [hsel, respondErrorCaching, errorMiddleware]
        | cons r rs => simp [hsel]
  | postProdutos b => simp [Request.isGet] at hg
  | putProduto id b => simp [Request.isGet] at hg
  | deleteProduto id => simp [Request.isGet] at hg
  | postClientes b => simp [Request.isGet] at hg
  | putCliente id b => simp [Request.isGet] at hg
  | deleteCliente id => simp [Request.isGet] at hg

theorem get_cache_hit_miss_behavior_witness :
    (handleRequest exampleState 0 (.getProdutos "")).dbInvoked = false :=
  ((get_cache_hit_miss_behavior exampleState 0 (.getProdutos "") (by decide)).1
    (.produtoRows [⟨1, .str "Caneta", .num 5⟩]) (by decide)).2.2.1

/-- `true` for the two create (POST) routes. -/
def Request.isCreate : Request → Bool
  | .postProdutos _ | .postClientes _ => true
  | _ => false

/-- `true` when every required field of a create body is present and
JavaScript-truthy — the condition under which the handler's
`if (!field || ...)` guard does not throw. -/
def Request.createBodyTruthy : Request → Bool
  | .postProdutos b => fieldTruthy b.nome && fieldTruthy b.preco
  | .postClientes c =>
      fieldTruthy c.nome && fieldTruthy c.sobrenome &&
        fieldTruthy c.email && fieldTruthy c.idade
  | _ => false

/-- `true` for the two PUT routes. -/
def Request.isPut : Request → Bool
  | .putProduto _ _ | .putCliente _ _ => true
  | _ => false

theorem produto_filter_nil {db : DB} {id : Nat} (h : db.hasProduto id = false) :
    db.produtos.filter (fun r => r.id == id) = [] := by
  rw [List.filter_eq_nil_iff]
  rw [DB.hasProduto, List.any_eq_false] at h
  exact fun r hr => by simpa using h r hr

theorem produto_countP_zero {db : DB} {id : Nat} (h : db.hasProduto id = false) :
    db.produtos.countP (fun r => r.id == id) = 0 := by
  rw [List.countP_eq_zero]
  rw [DB.hasProduto, List.any_eq_false] at h
  exact fun r hr => by simpa using h r hr

theorem cliente_filter_nil {db : DB} {id : Nat} (h : db.hasCliente id = false) :
    db.clientes.filter (fun r => r.id == id) = [] := by
  rw [List.filter_eq_nil_iff]
  rw [DB.hasCliente, List.any_eq_false] at h
  exact fun r hr => by simpa using h r hr

theorem cliente_countP_zero {db : DB} {id : Nat} (h : db.hasCliente id = false) :
    db.clientes.countP (fun r => r.id == id) = 0 := by
  rw [List.countP_eq_zero]
  rw [DB.hasCliente, List.any_eq_false] at h
  exact fun r hr => by simpa using h r hr

/-- C5 counterexample: a POST /produtos body that supplies both required
fields, with `preco = 0`, is rejected by the `!nome || !preco` guard (the
number 0 is falsy), so the request fails with 500 and no INSERT is issued —
the claim says such a body passes validation. -/
theorem create_zero_preco_rejected :
    (handleRequest exampleState 0
        (.postProdutos ⟨some (.str "Caneta"), some (.num 0)⟩)).status = 500 ∧
    (handleRequest exampleState 0
        (.postProdutos ⟨some (.str "Caneta"), some (.num 0)⟩)).dbInvoked = false := by
  decide

/-- C5 (amended): create fails with the validation error exactly when some
required field is absent or falsy (missing key, empty string, or the
number 0, e.g. preco = 0 or idade = 0); when every required field is
present and truthy the INSERT is issued and the request succeeds
with 201. -/
theorem create_validation_iff_truthy_fields (s : ServerState) (now : Nat)
    (r : Request) (hc : r.isCreate = true) :
    ((handleRequest s now r).dbInvoked = true ↔ r.createBodyTruthy = true) ∧
    (r.createBodyTruthy = false →
      (handleRequest s now r).status = 500 ∧ (handleRequest s now r).state = s) ∧
    (r.createBodyTruthy = true → (handleRequest s now r).status = 201) := by
  cases r with
  | postProdutos b =>
      simp only [handleRequest, handlePostProdutos, Request.createBodyTruthy]
      cases hn : fieldTruthy b.nome <;> cases hp : fieldTruthy b.preco <;>
        simp [hn, hp, respondError, errorMiddleware, DB.insertProduto, flushAll]
  | postClientes c =>
      simp only [handleRequest, handlePostClientes, Request.createBodyTruthy]
      cases h1 : fieldTruthy c.nome <;> cases h2 : fieldTruthy c.sobrenome <;>
        cases h3 : fieldTruthy c.email <;> cases h4 : fieldTruthy c.idade <;>
        simp [h1, h2, h3, h4, respondError, errorMiddleware, DB.insertCliente, flushAll]
  | getProdutos q => simp [Request.isCreate] at hc
  | getProdutoById id q => simp [Request.isCreate] at hc
  | putProduto id b => simp [Request.isCreate] at hc
  | deleteProduto id => simp [Request.isCreate] at hc
  | getClientes q => simp [Request.isCreate] at hc
  | getClienteById id q => simp [Request.isCreate] at hc
  | putCliente id c => simp [Request.isCreate] at hc
  | deleteCliente id => simp [Request.isCreate] at hc

theorem create_validation_iff_truthy_fields_witness :
    (handleRequest exampleState 0
        (.postProdutos ⟨some (.str "Lápis"), some (.num 3)⟩)).dbInvoked = true :=
  ((create_validation_iff_truthy_fields exampleState 0
      (.postProdutos ⟨some (.str "Lápis"), some (.num 3)⟩) (by decide)).1).mpr
    (by decide)

/-- C6: a GET-by-id, PUT or DELETE whose id matches zero rows fails and is
surfaced through the generic error middleware with the original message
(`... não encontrado`) and the generic 500 status — no distinct 404
business-status is produced.  (For the GET the cache must miss, and for the
PUT the body must pass validation, so that the statement reaches the
database.) -/
theorem zero_rows_surfaces_generic_error (s : ServerState) (now : Nat) (id : Nat)
    (query : String) (b : ProdutoBody) (c : ClienteBody)
    (hp : s.db.hasProduto id = false) (hcl : s.db.hasCliente id = false)
    (hkp : cacheGet s.cache now ("/produtos/" ++ toString id ++ query) = none)
    (hkc : cacheGet s.cache now ("/clientes/" ++ toString id ++ query) = none)
    (hb : fieldTruthy b.nome = true ∧ fieldTruthy b.preco = true)
    (hcb : fieldTruthy c.nome = true ∧ fieldTruthy c.sobrenome = true ∧
      fieldTruthy c.email = true ∧ fieldTruthy c.idade = true) :
    ((handleRequest s now (.getProdutoById id query)).status = 500 ∧
      (handleRequest s now (.getProdutoById id query)).body =
        .errorBody "Produto não encontrado") ∧
    ((handleRequest s now (.putProduto id b)).status = 500 ∧
      (handleRequest s now (.putProduto id b)).body =
        .errorBody "Produto não encontrado") ∧
    ((handleRequest s now (.deleteProduto id)).status = 500 ∧
      (handleRequest s now (.deleteProduto id)).body =
        .errorBody "Produto não encontrado") ∧
    ((handleRequest s now (.getClienteById id query)).status = 500 ∧
      (handleRequest s now (.getClienteById id query)).body =
        .errorBody "Cliente não encontrado") ∧
    ((handleRequest s now (.putCliente id c)).status = 500 ∧
      (handleRequest s now (.putCliente id c)).body =
        .errorBody "Cliente não encontrado") ∧
    ((handleRequest s now (.deleteCliente id)).status = 500 ∧
      (handleRequest s now (.deleteCliente id)).body =
        .errorBody "Cliente não encontrado") := by
  obtain ⟨hb1, hb2⟩ := hb
  obtain ⟨hc1, hc2, hc3, hc4⟩ := hcb
  refine ⟨?_, ?_, ?_, ?_, ?_, ?_⟩
  · simp [handleRequest, handleGetProdutoById, hkp, DB.selectProdutoById,
      produto_filter_nil hp, respondErrorCaching, errorMiddleware]
  · simp [handleRequest, handlePutProduto, hb1, hb2, DB.updateProduto,
      produto_countP_zero hp, respondError, errorMiddleware]
  · simp [handleRequest, handleDeleteProduto, DB.deleteProduto,
      produto_countP_zero hp, respondError, errorMiddleware]
  · simp [handleRequest, handleGetClienteById, hkc, DB.selectClienteById,
      cliente_filter_nil hcl, respondErrorCaching, errorMiddleware]
  · simp [handleRequest, handlePutCliente, hc1, hc2, hc3, hc4, DB.updateCliente,
      cliente_countP_zero hcl, respondError, errorMiddleware]
  · simp [handleRequest, handleDeleteCliente, DB.deleteCliente,
      cliente_countP_zero hcl, respondError, errorMiddleware]

theorem zero_rows_surfaces_generic_error_witness :
    (handleRequest exampleState 0 (.getProdutoById 9 "")).status = 500 ∧
    (handleRequest exampleState 0 (.getProdutoById 9 "")).body =
      .errorBody "Produto não encontrado" :=
  (zero_rows_surfaces_generic_error exampleState 0 9 ""
    ⟨some (.str "X"), some (.num 1)⟩
    ⟨some (.str "A"), some (.str "B"), some (.str "C"), some (.num 1)⟩
    (by decide) (by decide) (by decide) (by decide) (by decide) (by decide)).1

/-- C8: a PUT with a required field missing from the body fails validation
before any SQL statement is issued: the response is the validation failure,
no SQL runs, and the database — the stored record in particular — is
unchanged. -/
theorem put_missing_field_db_unchanged (s : ServerState) (now : Nat)
    (r : Request) (hp : r.isPut = true) (hm : r.missingRequired = true) :
    (handleRequest s now r).status = 500 ∧
    (handleRequest s now r).dbInvoked = false ∧
    (handleRequest s now r).state.db = s.db := by
  cases r with
  | putProduto id b =>
      simp only [Request.missingRequired, ProdutoBody.missingField, Bool.or_eq_true,
        Option.isNone_iff_eq_none] at hm
      rcases hm with h | h <;>
        simp [handleRequest, handlePutProduto, fieldTruthy_of_none h,
          respondError, errorMiddleware]
  | putCliente id c =>
      simp only [Request.missingRequired, ClienteBody.missingField, Bool.or_eq_true,
        Option.isNone_iff_eq_none] at hm
      rcases hm with ((h | h) | h) | h <;>
        simp [handleRequest, handlePutCliente, fieldTruthy_of_none h,
          respondError, errorMiddleware]
  | getProdutos q => simp [Request.isPut] at hp
  | getProdutoById id q => simp [Request.isPut] at hp
  | postProdutos b => simp [Request.isPut] at hp
  | deleteProduto id => simp [Request.isPut] at hp
  | getClientes q => simp [Request.isPut] at hp
  | getClienteById id q => simp [Request.isPut] at hp
  | postClientes c => simp [Request.isPut] at hp
  | deleteCliente id => simp [Request.isPut] at hp

theorem put_missing_field_db_unchanged_witness :
    (handleRequest exampleState 0
        (.putCliente 1 ⟨some (.str "Ana"), none, some (.str "a@x.com"),
          some (.num 30)⟩)).state.db = exampleState.db :=
  (put_missing_field_db_unchanged exampleState 0
    (.putCliente 1 ⟨some (.str "Ana"), none, some (.str "a@x.com"), some (.num 30)⟩)
    (by decide) (by decide)).2.2

/-- C9: a cache entry older than the fixed TTL (100 time-units) is treated
as absent: the lookup returns nothing and a GET at that time behaves as a
cache miss, issuing a SQL statement, even though no explicit invalidation
occurred. -/
theorem expired_entry_treated_absent (s : ServerState) (now : Nat) (r : Request)
    (k : String) (e : CacheEntry)
    (hg : r.isGet = true)
    (hfind : s.cache.find? (fun p => p.1 == r.cacheKey) = some (k, e))
    (hold : e.insertedAt + stdTTL < now) :
    cacheGet s.cache now r.cacheKey = none ∧
    (handleRequest s now r).dbInvoked = true := by
  have hget : cacheGet s.cache now r.cacheKey = none := by
    simp only [cacheGet, hfind]
    rw [if_neg (by omega)]
  refine ⟨hget, ?_⟩
  cases r with
  | getProdutos q =>
      simp only [Request.cacheKey] at hget
      simp [handleRequest, handleGetProdutos, hget]
  | getClientes q =>
      simp only [Request.cacheKey] at hget
      simp [handleRequest, handleGetClientes, hget]
  | getProdutoById id q =>
      simp only [Request.cacheKey] at hget
      simp only [handleRequest, handleGetProdutoById, hget]
      cases hsel : s.db.selectProdutoById id <;>
        simp [hsel, respondErrorCaching]
  | getClienteById id q =>
      simp only [Request.cacheKey] at hget
      simp only [handleRequest, handleGetClienteById, hget]
      cases hsel : s.db.selectClienteById id <;>
        simp [hsel, respondErrorCaching]
  | postProdutos b => simp [Request.isGet] at hg
  | putProduto id b => simp [Request.isGet] at hg
  | deleteProduto id => simp [Request.isGet] at hg
  | postClientes b => simp [Request.isGet] at hg
  | putCliente id c => simp [Request.isGet] at hg
  | deleteCliente id => simp [Request.isGet] at hg

theorem expired_entry_treated_absent_witness :
    cacheGet exampleState.cache 101 (Request.getProdutos "").cacheKey = none ∧
    (handleRequest exampleState 101 (.getProdutos "")).dbInvoked = true :=
  expired_entry_treated_absent exampleState 101 (.getProdutos "") "/produtos"
    ⟨.produtoRows [⟨1, .str "Caneta", .num 5⟩], 0⟩
    (by decide) (by decide) (by decide)

/-- C10: POST /produtos with a valid payload {nome, preco}, followed (with
no intervening mutation) by GET /produtos/:id on the id returned in the 201
body, yields 200 with a product whose nome and preco equal the payload's.
(`hfresh` is the AUTO_INCREMENT guarantee that the generated id is not
already present.) -/
theorem post_then_get_roundtrip (s : ServerState) (now later : Nat)
    (nome preco : JsValue)
    (hn : nome.truthy = true) (hp : preco.truthy = true)
    (hfresh : s.db.hasProduto s.db.nextProdutoId = false) :
    (handleRequest s now (.postProdutos ⟨some nome, some preco⟩)).status = 201 ∧
    (handleRequest s now (.postProdutos ⟨some nome, some preco⟩)).body =
      .produtoCreated s.db.nextProdutoId nome preco "Produto criado com sucesso" ∧
    (handleRequest (handleRequest s now (.postProdutos ⟨some nome, some preco⟩)).state
        later (.getProdutoById s.db.nextProdutoId "")).status = 200 ∧
    (handleRequest (handleRequest s now (.postProdutos ⟨some nome, some preco⟩)).state
        later (.getProdutoById s.db.nextProdutoId "")).body =
      .produtoRow ⟨s.db.nextProdutoId, nome, preco⟩ := by
  have h1 : handleRequest s now (.postProdutos ⟨some nome, some preco⟩) =
      { status := 201,
        body := .produtoCreated s.db.nextProdutoId nome preco
          "Produto criado com sucesso",
        state := { db := { s.db with
            produtos := s.db.produtos ++ [⟨s.db.nextProdutoId, nome, preco⟩],
            nextProdutoId := s.db.nextProdutoId + 1 }, cache := [] },
        dbInvoked := true } := by
    simp [handleRequest, handlePostProdutos, fieldTruthy, hn, hp,
      DB.insertProduto, flushAll]
  have hsel : ({ s.db with
      produtos := s.db.produtos ++ [⟨s.db.nextProdutoId, nome, preco⟩],
      nextProdutoId := s.db.nextProdutoId + 1 } : DB).selectProdutoById
        s.db.nextProdutoId = [⟨s.db.nextProdutoId, nome, preco⟩] := by
    simp only [DB.selectProdutoById, List.filter_append]
    rw [produto_filter_nil hfresh]
    simp
  rw [h1]
  refine ⟨rfl, rfl, ?_, ?_⟩ <;>
    simp [handleRequest, handleGetProdutoById, cacheGet_nil, hsel]

theorem post_then_get_roundtrip_witness :
    (handleRequest
        (handleRequest exampleState 0
          (.postProdutos ⟨some (.str "Borracha"), some (.num 2)⟩)).state
        1 (.getProdutoById exampleState.db.nextProdutoId "")).body =
      .produtoRow ⟨exampleState.db.nextProdutoId, .str "Borracha", .num 2⟩ :=
  (post_then_get_roundtrip exampleState 0 1 (.str "Borracha") (.num 2)
    (by decide) (by decide) (by decide)).2.2.2

end TrabalhoGustavo
